import Mathlib

/-!
Shallow embedding of `src/packages/core/src/middleware/alchemy-paymaster.ts`
from the aa-sdk repository, together with models of the two helpers
(`resolveProperties`, `deepHexlify`) that the file imports from
`../utils.js` (whose source is not part of this snapshot and is therefore
modelled from the specification).

TypeScript async functions returning promises are embedded as functions
into `Except RpcError _`; a rejected promise is an `Except.error`.
JavaScript records with possibly-absent keys are embedded as structures
of `Option` fields; the object-spread `\x7b...a, ...b\x7d` is embedded by
explicit field-wise construction following JavaScript's later-key-wins
semantics.
-/

/-- Opaque model of a JSON-RPC / transport error value: a code and a
message, enough to state that errors propagate unaltered. -/
structure RpcError where
  code : Int
  message : String
  deriving DecidableEq, Repr

/-- A primitive JavaScript field value as it occurs in a user operation:
either a numeric value (number / bigint) or a string (hex quantities,
addresses, byte arrays). -/
inductive Prim where
  | num (n : Nat)
  | str (s : String)
  deriving DecidableEq, Repr

/-- A field of the in-progress `UserOperationStruct`: a plain value, a
promise that will resolve to a value, or a promise that will reject. -/
inductive FieldSlot where
  | val (p : Prim)
  | resolvesTo (p : Prim)
  | rejectsWith (e : RpcError)
  deriving DecidableEq, Repr

/-- The in-progress user operation record (`UserOperationStruct` in
`types.ts`): every field may be absent, a literal, or deferred. -/
structure UserOperationStruct where
  sender : Option FieldSlot
  nonce : Option FieldSlot
  initCode : Option FieldSlot
  callData : Option FieldSlot
  callGasLimit : Option FieldSlot
  verificationGasLimit : Option FieldSlot
  preVerificationGas : Option FieldSlot
  maxFeePerGas : Option FieldSlot
  maxPriorityFeePerGas : Option FieldSlot
  paymasterAndData : Option FieldSlot
  signature : Option FieldSlot
  deriving DecidableEq, Repr

/-- A fully resolved user operation record: no deferred fields remain. -/
structure ResolvedUserOperation where
  sender : Option Prim
  nonce : Option Prim
  initCode : Option Prim
  callData : Option Prim
  callGasLimit : Option Prim
  verificationGasLimit : Option Prim
  preVerificationGas : Option Prim
  maxFeePerGas : Option Prim
  maxPriorityFeePerGas : Option Prim
  paymasterAndData : Option Prim
  signature : Option Prim
  deriving DecidableEq, Repr

/-- The hex-normalized wire projection (`UserOperationRequest` in
`types.ts`): every present field is a hex string. -/
structure UserOperationRequest where
  sender : Option String
  nonce : Option String
  initCode : Option String
  callData : Option String
  callGasLimit : Option String
  verificationGasLimit : Option String
  preVerificationGas : Option String
  maxFeePerGas : Option String
  maxPriorityFeePerGas : Option String
  paymasterAndData : Option String
  signature : Option String
  deriving DecidableEq, Repr

/-- Modelled from the spec: resolution of one field of the struct
(section 4.1 of the spec; the code is `resolveProperties` in
`src/packages/core/src/utils.ts`, which is not part of this snapshot).
An absent field stays absent, a literal or successfully resolving
deferred field yields its value, a rejecting deferred field fails. -/
def resolveField : Option FieldSlot → Except RpcError (Option Prim)
  | none => .ok none
  | some (.val p) => .ok (some p)
  | some (.resolvesTo p) => .ok (some p)
  | some (.rejectsWith e) => .error e

/-- Modelled from the spec: `resolveProperties` from
`src/packages/core/src/utils.ts` (not part of this snapshot), per
section 4.1 of the spec: awaits every field of the struct; if any
field's resolution fails the whole resolution fails and no partial
record is returned. -/
def resolveProperties (s : UserOperationStruct) :
    Except RpcError ResolvedUserOperation := do
  let sender ← resolveField s.sender
  let nonce ← resolveField s.nonce
  let initCode ← resolveField s.initCode
  let callData ← resolveField s.callData
  let callGasLimit ← resolveField s.callGasLimit
  let verificationGasLimit ← resolveField s.verificationGasLimit
  let preVerificationGas ← resolveField s.preVerificationGas
  let maxFeePerGas ← resolveField s.maxFeePerGas
  let maxPriorityFeePerGas ← resolveField s.maxPriorityFeePerGas
  let paymasterAndData ← resolveField s.paymasterAndData
  let signature ← resolveField s.signature
  return ⟨sender, nonce, initCode, callData, callGasLimit,
    verificationGasLimit, preVerificationGas, maxFeePerGas,
    maxPriorityFeePerGas, paymasterAndData, signature⟩

/-- Lowercase hexadecimal rendering of a natural number with the `0x`
prefix, as produced by the hex normalizer for numeric fields. -/
def toHexString (n : Nat) : String :=
  "0x" ++ String.mk (Nat.toDigits 16 n)

/-- Modelled from the spec: hex normalization of one primitive value
(section 4.2 of the spec; the code is `deepHexlify` in
`src/packages/core/src/utils.ts`, not part of this snapshot): numeric
values are encoded as lowercase `0x` hex strings, strings pass
through. -/
def hexlifyPrim : Prim → String
  | .num n => toHexString n
  | .str s => s

/-- Modelled from the spec: `deepHexlify` from
`src/packages/core/src/utils.ts` (not part of this snapshot), per
section 4.2 of the spec, restricted to the resolved user operation
record it is applied to in this file: every present field is
hex-normalized. -/
def deepHexlify (r : ResolvedUserOperation) : UserOperationRequest :=
  ⟨r.sender.map hexlifyPrim, r.nonce.map hexlifyPrim,
    r.initCode.map hexlifyPrim, r.callData.map hexlifyPrim,
    r.callGasLimit.map hexlifyPrim, r.verificationGasLimit.map hexlifyPrim,
    r.preVerificationGas.map hexlifyPrim, r.maxFeePerGas.map hexlifyPrim,
    r.maxPriorityFeePerGas.map hexlifyPrim, r.paymasterAndData.map hexlifyPrim,
    r.signature.map hexlifyPrim⟩

/-- Parameter record of the `alchemy_requestPaymasterAndData` RPC
method, as declared in `ClientWithAlchemyMethods`. -/
structure PaymasterAndDataParams where
  policyId : String
  entryPoint : String
  userOperation : UserOperationRequest
  deriving DecidableEq, Repr

/-- Result record of the `alchemy_requestPaymasterAndData` RPC method. -/
structure PaymasterAndDataResult where
  paymasterAndData : String
  deriving DecidableEq, Repr

/-- Parameter record of the `alchemy_requestGasAndPaymasterAndData` RPC
method, as declared in `ClientWithAlchemyMethods`. -/
structure GasAndPaymasterParams where
  policyId : String
  entryPoint : String
  userOperation : UserOperationRequest
  dummySignature : String
  deriving DecidableEq, Repr

/-- Result record of the `alchemy_requestGasAndPaymasterAndData` RPC
method: all six fields are present per the declared response type. -/
structure GasAndPaymasterResult where
  paymasterAndData : String
  callGasLimit : String
  verificationGasLimit : String
  preVerificationGas : String
  maxFeePerGas : String
  maxPriorityFeePerGas : String
  deriving DecidableEq, Repr

/-- The Alchemy RPC client (`PublicErc4337Client` with the Alchemy
methods): its chain id and the two typed request methods, each of
which may reject with a transport or service error. -/
structure PublicErc4337Client where
  chainId : Nat
  requestPaymasterAndData :
    PaymasterAndDataParams → Except RpcError PaymasterAndDataResult
  requestGasAndPaymasterAndData :
    GasAndPaymasterParams → Except RpcError GasAndPaymasterResult

/-- `AlchemyPaymasterConfig`: policy id, entry point address and the
RPC client handle. -/
structure AlchemyPaymasterConfig where
  policyId : String
  entryPoint : String
  provider : PublicErc4337Client

/-- Result record of the gas estimator middleware slot: the three gas
bigint fields returned by the estimator installed in
`withAlchemyGasManager`. -/
structure GasEstimateResult where
  callGasLimit : Nat
  preVerificationGas : Nat
  verificationGasLimit : Nat
  deriving DecidableEq, Repr

/-- Result record of the fee data getter middleware slot. -/
structure FeeDataResult where
  maxFeePerGas : Nat
  maxPriorityFeePerGas : Nat
  deriving DecidableEq, Repr

/-- The smart account provider, restricted to the members this file
uses: the account's dummy signature getter and the three middleware
slots that `withAlchemyGasManager` replaces. -/
structure SmartAccountProvider where
  accountDummySignature : String
  gasEstimator : UserOperationStruct → Except RpcError GasEstimateResult
  feeDataGetter : UserOperationStruct → Except RpcError FeeDataResult
  customMiddleware : UserOperationStruct → Except RpcError UserOperationStruct

/-- `withGasEstimator`: installing a gas estimator replaces the slot. -/
def SmartAccountProvider.withGasEstimator (p : SmartAccountProvider)
    (f : UserOperationStruct → Except RpcError GasEstimateResult) :
    SmartAccountProvider :=
  { p with gasEstimator := f }

/-- `withFeeDataGetter`: installing a fee data getter replaces the slot. -/
def SmartAccountProvider.withFeeDataGetter (p : SmartAccountProvider)
    (f : UserOperationStruct → Except RpcError FeeDataResult) :
    SmartAccountProvider :=
  { p with feeDataGetter := f }

/-- `withCustomMiddleware`: installing a custom middleware replaces the
slot. -/
def SmartAccountProvider.withCustomMiddleware (p : SmartAccountProvider)
    (f : UserOperationStruct → Except RpcError UserOperationStruct) :
    SmartAccountProvider :=
  { p with customMiddleware := f }

/-- A hex string stored into a struct field slot, as happens when a
remote result field is spread into the struct. -/
def hexField (s : String) : Option FieldSlot :=
  some (.val (.str s))

/-- Embedding of the object spread `\x7b ...struct, ...result \x7d` in the
custom middleware of `withAlchemyGasManager`: the six fields of the
typed remote result overwrite the struct's fields, every other field of
the struct is kept. -/
def mergeGasAndPaymasterResult (struct : UserOperationStruct)
    (result : GasAndPaymasterResult) : UserOperationStruct :=
  { struct with
    callGasLimit := hexField result.callGasLimit
    verificationGasLimit := hexField result.verificationGasLimit
    preVerificationGas := hexField result.preVerificationGas
    maxFeePerGas := hexField result.maxFeePerGas
    maxPriorityFeePerGas := hexField result.maxPriorityFeePerGas
    paymasterAndData := hexField result.paymasterAndData }

/-- `withAlchemyGasManager`: replaces the gas estimator and fee data
getter with constant zero-returning functions and installs a custom
middleware that performs the combined
`alchemy_requestGasAndPaymasterAndData` call on the resolved,
hex-normalized struct and the account's dummy signature, then returns
the struct spread with the result. -/
def withAlchemyGasManager (provider : SmartAccountProvider)
    (config : AlchemyPaymasterConfig) : SmartAccountProvider :=
  ((provider.withGasEstimator
      (fun _ => .ok ⟨0, 0, 0⟩)).withFeeDataGetter
      (fun _ => .ok ⟨0, 0⟩)).withCustomMiddleware
      (fun struct => do
        let resolved ← resolveProperties struct
        let result ← config.provider.requestGasAndPaymasterAndData
          ⟨config.policyId, config.entryPoint, deepHexlify resolved,
            provider.accountDummySignature⟩
        return mergeGasAndPaymasterResult struct result)

/-- The placeholder `paymasterAndData` literal returned for chain ids
1, 137 and 42161 (the three fall-through cases of the switch). -/
def knownChainsPlaceholder : String :=
  "0x4Fd9098af9ddcB41DA48A1d78F91F1398965addcfffffffffffffffffffffffffffffffffffffffffffffffffffffffffffffffffffffffffffffffffffffffffffffff0000000000000000000000000000000007aaaaaaaaaaaaaaaaaaaaaaaaaaaaaaaaaaaaaaaaaaaaaaaaaaaaaaaaaaaaaaa1c"

/-- The placeholder `paymasterAndData` literal returned by the default
branch of the switch. -/
def defaultChainPlaceholder : String :=
  "0xc03aac639bb21233e0139381970328db8bceeb67fffffffffffffffffffffffffffffffffffffffffffffffffffffffffffffffffffffffffffffffffffffffffffffff0000000000000000000000000000000007aaaaaaaaaaaaaaaaaaaaaaaaaaaaaaaaaaaaaaaaaaaaaaaaaaaaaaaaaaaaaaa1c"

/-- A patch record holding only a `paymasterAndData` field, as returned
by both paymaster middlewares (`\x7b paymasterAndData \x7d`). -/
def pmdPatch (s : String) : UserOperationStruct :=
  ⟨none, none, none, none, none, none, none, none, none, hexField s, none⟩

/-- The middleware-overrides record returned by
`alchemyPaymasterAndDataMiddleware` for
`withPaymasterMiddleware`. -/
structure PaymasterMiddlewareOverrides where
  dummyPaymasterDataMiddleware :
    UserOperationStruct → Except RpcError UserOperationStruct
  paymasterDataMiddleware :
    UserOperationStruct → Except RpcError UserOperationStruct

/-- `alchemyPaymasterAndDataMiddleware`: the dummy middleware switches
on the configured chain id (cases 1, 137, 42161 fall through to one
shared literal, everything else takes the default literal; the switch's
equality dispatch is embedded as a disjunctive equality test) and
ignores its struct argument; the paymaster data middleware performs the
`alchemy_requestPaymasterAndData` call on the resolved, hex-normalized
struct and returns a record holding only the returned
`paymasterAndData`. -/
def alchemyPaymasterAndDataMiddleware (config : AlchemyPaymasterConfig) :
    PaymasterMiddlewareOverrides :=
  { dummyPaymasterDataMiddleware := fun _struct =>
      if config.provider.chainId = 1 ∨ config.provider.chainId = 137 ∨
          config.provider.chainId = 42161 then
        .ok (pmdPatch knownChainsPlaceholder)
      else
        .ok (pmdPatch defaultChainPlaceholder)
  , paymasterDataMiddleware := fun struct => do
      let resolved ← resolveProperties struct
      let r ← config.provider.requestPaymasterAndData
        ⟨config.policyId, config.entryPoint, deepHexlify resolved⟩
      return pmdPatch r.paymasterAndData }

/-- Explicit state-passing embedding of one middleware invocation by the
pipeline: alongside the middleware's result it returns the caller's
struct binding and configuration after the call. The middleware bodies
in this file contain no assignment to the struct or to the config, so
the embedding threads both through unchanged. -/
def invokeMiddleware
    (f : UserOperationStruct → Except RpcError UserOperationStruct)
    (struct : UserOperationStruct) (config : AlchemyPaymasterConfig) :
    Except RpcError UserOperationStruct × UserOperationStruct ×
      AlchemyPaymasterConfig :=
  (f struct, struct, config)

/-- A struct with every field absent, used as a concrete input. -/
def emptyStruct : UserOperationStruct :=
  ⟨none, none, none, none, none, none, none, none, none, none, none⟩

/-- The resolution of `emptyStruct`. -/
def emptyResolved : ResolvedUserOperation :=
  ⟨none, none, none, none, none, none, none, none, none, none, none⟩

/-- A concrete remote result used by the concrete client below. -/
def stubResult : GasAndPaymasterResult :=
  ⟨"0xpm", "0x1", "0x2", "0x3", "0x4", "0x5"⟩

/-- A concrete client whose requests always succeed. -/
def stubClient (chainId : Nat) : PublicErc4337Client :=
  ⟨chainId, fun _ => .ok ⟨"0xonly"⟩, fun _ => .ok stubResult⟩

/-- A concrete config over `stubClient`. -/
def stubConfig (chainId : Nat) : AlchemyPaymasterConfig :=
  ⟨"policy-a", "0xentry", stubClient chainId⟩

/-- A concrete client whose requests always reject with the given
error. -/
def errClient (e : RpcError) : PublicErc4337Client :=
  ⟨1, fun _ => .error e, fun _ => .error e⟩

/-- A concrete config over `errClient`. -/
def errConfig (e : RpcError) : AlchemyPaymasterConfig :=
  ⟨"policy-a", "0xentry", errClient e⟩

/-- A concrete provider to wrap with `withAlchemyGasManager`. -/
def stubProvider : SmartAccountProvider :=
  ⟨"0xsig", fun _ => .ok ⟨7, 8, 9⟩, fun _ => .ok ⟨10, 11⟩,
    fun _ => .error ⟨0, "no custom middleware installed"⟩⟩

/-- C3: the gas estimator installed by `withAlchemyGasManager` always
returns exactly zero for the three gas fields, and the fee data getter
it installs always returns exactly zero for both fee fields, for every
input struct, provider and config (they are constant functions). -/
theorem gas_manager_noop_gas_and_fee_middlewares
    (provider : SmartAccountProvider) (config : AlchemyPaymasterConfig)
    (struct : UserOperationStruct) :
    (withAlchemyGasManager provider config).gasEstimator struct =
      .ok ⟨0, 0, 0⟩ ∧
    (withAlchemyGasManager provider config).feeDataGetter struct =
      .ok ⟨0, 0⟩ :=
  ⟨rfl, rfl⟩

/-- C6: the placeholder returned for the known chain ids and the default
placeholder have equal hex-string length (236 characters, that is 117
bytes of payload after the `0x` prefix). -/
theorem placeholder_lengths_equal :
    knownChainsPlaceholder.length = defaultChainPlaceholder.length ∧
    knownChainsPlaceholder.length = 236 :=
  ⟨rfl, rfl⟩

/-- C7: the dummy paymaster data middleware never fails: for every
config (hence every chain id, including unrecognized ones) and every
input struct it returns a `paymasterAndData` patch successfully. -/
theorem dummy_middleware_never_fails (config : AlchemyPaymasterConfig)
    (struct : UserOperationStruct) :
    ∃ s, (alchemyPaymasterAndDataMiddleware
        config).dummyPaymasterDataMiddleware struct = .ok (pmdPatch s) := by
  simp only [alchemyPaymasterAndDataMiddleware]
  split <;> exact ⟨_, rfl⟩

/-- C9: the dummy paymaster data middleware's output depends only on
the configured chain id, not on the input struct: for any two input
structs evaluated under the same config the results are equal. -/
theorem dummy_middleware_ignores_struct (config : AlchemyPaymasterConfig)
    (s1 s2 : UserOperationStruct) :
    (alchemyPaymasterAndDataMiddleware
        config).dummyPaymasterDataMiddleware s1 =
    (alchemyPaymasterAndDataMiddleware
        config).dummyPaymasterDataMiddleware s2 :=
  rfl

/-- Unfolding of the custom middleware installed by
`withAlchemyGasManager` into the explicit `Except` bind chain it
elaborates to. -/
theorem customMiddleware_eq (provider : SmartAccountProvider)
    (config : AlchemyPaymasterConfig) (struct : UserOperationStruct) :
    (withAlchemyGasManager provider config).customMiddleware struct =
      Except.bind (resolveProperties struct) (fun resolved =>
        Except.bind (config.provider.requestGasAndPaymasterAndData
          ⟨config.policyId, config.entryPoint, deepHexlify resolved,
            provider.accountDummySignature⟩)
          (fun result => Except.ok (mergeGasAndPaymasterResult struct result))) :=
  rfl

/-- Unfolding of the paymaster data middleware of
`alchemyPaymasterAndDataMiddleware` into the explicit `Except` bind
chain it elaborates to. -/
theorem paymasterDataMiddleware_eq (config : AlchemyPaymasterConfig)
    (struct : UserOperationStruct) :
    (alchemyPaymasterAndDataMiddleware config).paymasterDataMiddleware struct =
      Except.bind (resolveProperties struct) (fun resolved =>
        Except.bind (config.provider.requestPaymasterAndData
          ⟨config.policyId, config.entryPoint, deepHexlify resolved⟩)
          (fun r => Except.ok (pmdPatch r.paymasterAndData))) :=
  rfl

/-- C1: for every input struct and every remote result returned by the
combined call, the custom middleware installed by
`withAlchemyGasManager` returns the input struct shallow-merged with
the remote result: the six fields of the remote result hold the remote
values in the output, and every other field of the struct is
unchanged. -/
theorem custom_middleware_shallow_merges_remote_result
    (provider : SmartAccountProvider) (config : AlchemyPaymasterConfig)
    (struct : UserOperationStruct) (r : ResolvedUserOperation)
    (result : GasAndPaymasterResult)
    (hres : resolveProperties struct = .ok r)
    (hreq : config.provider.requestGasAndPaymasterAndData
      ⟨config.policyId, config.entryPoint, deepHexlify r,
        provider.accountDummySignature⟩ = .ok result) :
    ∃ merged,
      (withAlchemyGasManager provider config).customMiddleware struct =
        .ok merged ∧
      merged.callGasLimit = hexField result.callGasLimit ∧
      merged.verificationGasLimit = hexField result.verificationGasLimit ∧
      merged.preVerificationGas = hexField result.preVerificationGas ∧
      merged.maxFeePerGas = hexField result.maxFeePerGas ∧
      merged.maxPriorityFeePerGas = hexField result.maxPriorityFeePerGas ∧
      merged.paymasterAndData = hexField result.paymasterAndData ∧
      merged.sender = struct.sender ∧
      merged.nonce = struct.nonce ∧
      merged.initCode = struct.initCode ∧
      merged.callData = struct.callData ∧
      merged.signature = struct.signature := by
  refine ⟨mergeGasAndPaymasterResult struct result, ?_, rfl, rfl, rfl, rfl,
    rfl, rfl, rfl, rfl, rfl, rfl, rfl⟩
  rw [customMiddleware_eq, hres]
  simp only [Except.bind]
  rw [hreq]

/-- Closed instance of C1's theorem at a concrete provider, config,
struct and remote result. -/
theorem custom_middleware_shallow_merges_remote_result_witness :
    ∃ merged,
      (withAlchemyGasManager stubProvider (stubConfig 1)).customMiddleware
          emptyStruct = .ok merged ∧
      merged.callGasLimit = hexField stubResult.callGasLimit ∧
      merged.verificationGasLimit = hexField stubResult.verificationGasLimit ∧
      merged.preVerificationGas = hexField stubResult.preVerificationGas ∧
      merged.maxFeePerGas = hexField stubResult.maxFeePerGas ∧
      merged.maxPriorityFeePerGas = hexField stubResult.maxPriorityFeePerGas ∧
      merged.paymasterAndData = hexField stubResult.paymasterAndData ∧
      merged.sender = emptyStruct.sender ∧
      merged.nonce = emptyStruct.nonce ∧
      merged.initCode = emptyStruct.initCode ∧
      merged.callData = emptyStruct.callData ∧
      merged.signature = emptyStruct.signature :=
  custom_middleware_shallow_merges_remote_result stubProvider (stubConfig 1)
    emptyStruct emptyResolved stubResult rfl rfl

/-- C4: both remote-calling middlewares compute the `userOperation` RPC
parameter as `deepHexlify` of `resolveProperties` of the struct they
receive at call time, and the combined method additionally passes the
account's dummy signature: each middleware's entire behavior equals
invoking the client method at exactly that parameter record. -/
theorem middlewares_send_hexlified_resolved_struct
    (provider : SmartAccountProvider) (config : AlchemyPaymasterConfig)
    (struct : UserOperationStruct) (r : ResolvedUserOperation)
    (hres : resolveProperties struct = .ok r) :
    (withAlchemyGasManager provider config).customMiddleware struct =
      (config.provider.requestGasAndPaymasterAndData
        ⟨config.policyId, config.entryPoint, deepHexlify r,
          provider.accountDummySignature⟩).map
        (mergeGasAndPaymasterResult struct) ∧
    (alchemyPaymasterAndDataMiddleware config).paymasterDataMiddleware
        struct =
      (config.provider.requestPaymasterAndData
        ⟨config.policyId, config.entryPoint, deepHexlify r⟩).map
        (fun res => pmdPatch res.paymasterAndData) := by
  constructor
  · rw [customMiddleware_eq, hres]
    simp only [Except.bind]
    cases config.provider.requestGasAndPaymasterAndData
      ⟨config.policyId, config.entryPoint, deepHexlify r,
        provider.accountDummySignature⟩ <;> rfl
  · rw [paymasterDataMiddleware_eq, hres]
    simp only [Except.bind]
    cases config.provider.requestPaymasterAndData
      ⟨config.policyId, config.entryPoint, deepHexlify r⟩ <;> rfl

/-- Closed instance of C4's theorem at a concrete provider, config and
struct. -/
theorem middlewares_send_hexlified_resolved_struct_witness :
    (withAlchemyGasManager stubProvider (stubConfig 1)).customMiddleware
        emptyStruct =
      ((stubConfig 1).provider.requestGasAndPaymasterAndData
        ⟨(stubConfig 1).policyId, (stubConfig 1).entryPoint,
          deepHexlify emptyResolved,
          stubProvider.accountDummySignature⟩).map
        (mergeGasAndPaymasterResult emptyStruct) ∧
    (alchemyPaymasterAndDataMiddleware (stubConfig 1)).paymasterDataMiddleware
        emptyStruct =
      ((stubConfig 1).provider.requestPaymasterAndData
        ⟨(stubConfig 1).policyId, (stubConfig 1).entryPoint,
          deepHexlify emptyResolved⟩).map
        (fun res => pmdPatch res.paymasterAndData) :=
  middlewares_send_hexlified_resolved_struct stubProvider (stubConfig 1)
    emptyStruct emptyResolved rfl

/-- C5: if the underlying RPC request rejects with an error, both the
custom middleware installed by `withAlchemyGasManager` and the
paymaster data middleware reject with that same error value unaltered:
no retry, no fallback value, no partial result. -/
theorem middlewares_propagate_remote_errors
    (provider : SmartAccountProvider) (config : AlchemyPaymasterConfig)
    (struct : UserOperationStruct) (r : ResolvedUserOperation) (e : RpcError)
    (hres : resolveProperties struct = .ok r)
    (hgas : config.provider.requestGasAndPaymasterAndData
      ⟨config.policyId, config.entryPoint, deepHexlify r,
        provider.accountDummySignature⟩ = .error e)
    (hpmd : config.provider.requestPaymasterAndData
      ⟨config.policyId, config.entryPoint, deepHexlify r⟩ = .error e) :
    (withAlchemyGasManager provider config).customMiddleware struct =
      .error e ∧
    (alchemyPaymasterAndDataMiddleware config).paymasterDataMiddleware
        struct = .error e := by
  constructor
  · rw [customMiddleware_eq, hres]
    simp only [Except.bind]
    rw [hgas]
  · rw [paymasterDataMiddleware_eq, hres]
    simp only [Except.bind]
    rw [hpmd]

/-- Closed instance of C5's theorem at a concrete failing client. -/
theorem middlewares_propagate_remote_errors_witness :
    (withAlchemyGasManager stubProvider
        (errConfig ⟨-32000, "sponsor refused"⟩)).customMiddleware
      emptyStruct = .error ⟨-32000, "sponsor refused"⟩ ∧
    (alchemyPaymasterAndDataMiddleware
        (errConfig ⟨-32000, "sponsor refused"⟩)).paymasterDataMiddleware
      emptyStruct = .error ⟨-32000, "sponsor refused"⟩ :=
  middlewares_propagate_remote_errors stubProvider
    (errConfig ⟨-32000, "sponsor refused"⟩) emptyStruct emptyResolved
    ⟨-32000, "sponsor refused"⟩ rfl rfl rfl

/-- C8: for every input struct and every successful remote response,
the paymaster data middleware returns a patch record whose only present
field is `paymasterAndData`, set to the remote response's value; every
other field of the patch is absent, so the patch cannot alter gas or
fee fields of the accumulating record. -/
theorem paymaster_middleware_patch_only_paymasterAndData
    (config : AlchemyPaymasterConfig) (struct : UserOperationStruct)
    (r : ResolvedUserOperation) (res : PaymasterAndDataResult)
    (hres : resolveProperties struct = .ok r)
    (hreq : config.provider.requestPaymasterAndData
      ⟨config.policyId, config.entryPoint, deepHexlify r⟩ = .ok res) :
    ∃ patch,
      (alchemyPaymasterAndDataMiddleware config).paymasterDataMiddleware
          struct = .ok patch ∧
      patch.paymasterAndData = hexField res.paymasterAndData ∧
      patch.sender = none ∧
      patch.nonce = none ∧
      patch.initCode = none ∧
      patch.callData = none ∧
      patch.callGasLimit = none ∧
      patch.verificationGasLimit = none ∧
      patch.preVerificationGas = none ∧
      patch.maxFeePerGas = none ∧
      patch.maxPriorityFeePerGas = none ∧
      patch.signature = none := by
  refine ⟨pmdPatch res.paymasterAndData, ?_, rfl, rfl, rfl, rfl, rfl, rfl,
    rfl, rfl, rfl, rfl, rfl⟩
  rw [paymasterDataMiddleware_eq, hres]
  simp only [Except.bind]
  rw [hreq]

/-- Closed instance of C8's theorem at a concrete client and struct. -/
theorem paymaster_middleware_patch_only_paymasterAndData_witness :
    ∃ patch,
      (alchemyPaymasterAndDataMiddleware
          (stubConfig 1)).paymasterDataMiddleware emptyStruct = .ok patch ∧
      patch.paymasterAndData = hexField
        (PaymasterAndDataResult.mk "0xonly").paymasterAndData ∧
      patch.sender = none ∧
      patch.nonce = none ∧
      patch.initCode = none ∧
      patch.callData = none ∧
      patch.callGasLimit = none ∧
      patch.verificationGasLimit = none ∧
      patch.preVerificationGas = none ∧
      patch.maxFeePerGas = none ∧
      patch.maxPriorityFeePerGas = none ∧
      patch.signature = none :=
  paymaster_middleware_patch_only_paymasterAndData (stubConfig 1) emptyStruct
    emptyResolved ⟨"0xonly"⟩ rfl rfl

/-- C2 counterexample: the claim asserts pairwise-distinct placeholders
for chain ids 1, 137 and 42161, but the switch's fall-through returns
one and the same placeholder for all three: the middleware's outputs at
chain ids 1, 137 and 42161 coincide. -/
theorem dummy_placeholders_not_distinct_across_known_chains :
    (alchemyPaymasterAndDataMiddleware
        (stubConfig 1)).dummyPaymasterDataMiddleware emptyStruct =
      (alchemyPaymasterAndDataMiddleware
        (stubConfig 137)).dummyPaymasterDataMiddleware emptyStruct ∧
    (alchemyPaymasterAndDataMiddleware
        (stubConfig 137)).dummyPaymasterDataMiddleware emptyStruct =
      (alchemyPaymasterAndDataMiddleware
        (stubConfig 42161)).dummyPaymasterDataMiddleware emptyStruct :=
  ⟨rfl, rfl⟩

/-- C2 amended: for chain ids 1, 137 and 42161 the dummy middleware
returns one shared fixed placeholder, for every other chain id it
returns the shared default placeholder, and those two placeholders are
distinct. -/
theorem dummy_middleware_known_chains_share_placeholder
    (config : AlchemyPaymasterConfig) (struct : UserOperationStruct) :
    ((config.provider.chainId = 1 ∨ config.provider.chainId = 137 ∨
        config.provider.chainId = 42161) →
      (alchemyPaymasterAndDataMiddleware
          config).dummyPaymasterDataMiddleware struct =
        .ok (pmdPatch knownChainsPlaceholder)) ∧
    (config.provider.chainId ≠ 1 → config.provider.chainId ≠ 137 →
      config.provider.chainId ≠ 42161 →
      (alchemyPaymasterAndDataMiddleware
          config).dummyPaymasterDataMiddleware struct =
        .ok (pmdPatch defaultChainPlaceholder)) ∧
    knownChainsPlaceholder ≠ defaultChainPlaceholder := by
  refine ⟨?_, ?_, by decide⟩
  · intro h
    simp [alchemyPaymasterAndDataMiddleware, h]
  · intro h1 h2 h3
    simp [alchemyPaymasterAndDataMiddleware, h1, h2, h3]

/-- Closed instance of C2's amended theorem: the known-chain branch at
chain id 42161 and the default branch at chain id 10. -/
theorem dummy_middleware_known_chains_share_placeholder_witness :
    (alchemyPaymasterAndDataMiddleware
        (stubConfig 42161)).dummyPaymasterDataMiddleware emptyStruct =
      .ok (pmdPatch knownChainsPlaceholder) ∧
    (alchemyPaymasterAndDataMiddleware
        (stubConfig 10)).dummyPaymasterDataMiddleware emptyStruct =
      .ok (pmdPatch defaultChainPlaceholder) :=
  ⟨(dummy_middleware_known_chains_share_placeholder (stubConfig 42161)
      emptyStruct).1 (Or.inr (Or.inr rfl)),
    (dummy_middleware_known_chains_share_placeholder (stubConfig 10)
      emptyStruct).2.1 (by decide) (by decide) (by decide)⟩

/-- C10: no middleware in this module mutates the caller's struct or
the config: in the state-passing embedding of a middleware invocation
both come back unchanged, so in particular when the remote call rejects
the caller's struct and config are exactly as they were before the call
and no partial output is produced. -/
theorem middlewares_atomic_on_error
    (provider : SmartAccountProvider) (config : AlchemyPaymasterConfig)
    (struct : UserOperationStruct) (r : ResolvedUserOperation) (e : RpcError)
    (hres : resolveProperties struct = .ok r)
    (hgas : config.provider.requestGasAndPaymasterAndData
      ⟨config.policyId, config.entryPoint, deepHexlify r,
        provider.accountDummySignature⟩ = .error e)
    (hpmd : config.provider.requestPaymasterAndData
      ⟨config.policyId, config.entryPoint, deepHexlify r⟩ = .error e) :
    invokeMiddleware
        ((withAlchemyGasManager provider config).customMiddleware) struct
        config = (.error e, struct, config) ∧
    invokeMiddleware
        ((alchemyPaymasterAndDataMiddleware config).paymasterDataMiddleware)
        struct config = (.error e, struct, config) ∧
    ∃ s, invokeMiddleware
        ((alchemyPaymasterAndDataMiddleware
          config).dummyPaymasterDataMiddleware) struct config =
      (.ok (pmdPatch s), struct, config) := by
  refine ⟨?_, ?_, ?_⟩
  · simp only [invokeMiddleware, customMiddleware_eq, hres, Except.bind,
      hgas]
  · simp only [invokeMiddleware, paymasterDataMiddleware_eq, hres,
      Except.bind, hpmd]
  · simp only [invokeMiddleware, alchemyPaymasterAndDataMiddleware]
    split <;> exact ⟨_, rfl⟩

/-- Closed instance of C10's theorem at a concrete failing client. -/
theorem middlewares_atomic_on_error_witness :
    invokeMiddleware
        ((withAlchemyGasManager stubProvider
          (errConfig ⟨7, "timeout"⟩)).customMiddleware) emptyStruct
        (errConfig ⟨7, "timeout"⟩) =
      (.error ⟨7, "timeout"⟩, emptyStruct, errConfig ⟨7, "timeout"⟩) ∧
    invokeMiddleware
        ((alchemyPaymasterAndDataMiddleware
          (errConfig ⟨7, "timeout"⟩)).paymasterDataMiddleware) emptyStruct
        (errConfig ⟨7, "timeout"⟩) =
      (.error ⟨7, "timeout"⟩, emptyStruct, errConfig ⟨7, "timeout"⟩) ∧
    ∃ s, invokeMiddleware
        ((alchemyPaymasterAndDataMiddleware
          (errConfig ⟨7, "timeout"⟩)).dummyPaymasterDataMiddleware)
        emptyStruct (errConfig ⟨7, "timeout"⟩) =
      (.ok (pmdPatch s), emptyStruct, errConfig ⟨7, "timeout"⟩) :=
  middlewares_atomic_on_error stubProvider (errConfig ⟨7, "timeout"⟩)
    emptyStruct emptyResolved ⟨7, "timeout"⟩ rfl rfl rfl
